import Mathlib

/-!
Verification of the threeatesix 8086/80386 CPU emulator core.

The development shallowly embeds the Go sources:
* `devices/intel8086/80386_cpu.go` (package `intel8086`) as namespace `Intel8086`:
  the core's lifecycle (reset, mode switch, step watchdog), the real-mode
  address generator and the ModR/M register/memory operand resolvers.
* the handler file of package `cpu` as namespace `Cpu`: the opcode handlers
  `INSTR_CMP`, `INSTR_TEST_AL`, `INSTR_XCHG`, `INSTR_JZ_SHORT_REL8`,
  `INSTR_JNZ_SHORT_REL8`.

Go machine integers are embedded as `Nat` with explicit reductions modulo
`2^8`, `2^16`, `2^20` where the Go code's fixed-width types truncate; Go's
signed `int16` casts/arithmetic are embedded via `Int` with an explicit
two's-complement wrap.
-/

namespace ThreeAteSix

/-- Modelled from the spec: the `common` package defining the bus-message
subject constants is not under `src/`; only their distinctness is relied on.
Subject of the externally delivered mode-switch request. -/
def MESSAGE_REQUEST_CPU_MODESWITCH : Nat := 1

/-- Modelled from the spec: subject of the announcement broadcast on every
mode transition, payload = new mode byte. -/
def MESSAGE_GLOBAL_CPU_MODESWITCH : Nat := 2

/-- Modelled from the spec: subject of the BIOS-region lock message broadcast
once at reset. -/
def MESSAGE_GLOBAL_LOCK_BIOS_MEM_REGION : Nat := 3

/-- Modelled from the spec: the `common` package mode constants are not under
`src/`; the spec names the two states REAL and PROTECTED. -/
def REAL_MODE : Nat := 0

/-- Modelled from the spec: the PROTECTED mode constant. -/
def PROTECTED_MODE : Nat := 1

/-- A message on the inter-device bus: a subject tag and a byte payload. -/
structure BusMessage where
  Subject : Nat
  Data : List Nat
  deriving Repr, DecidableEq

namespace Intel8086

/-- Execution flags of the 80386 core (`CpuExecutionFlags` in the source):
segment-override scratch state and the CR0 shadow. -/
structure CpuExecutionFlags where
  CS_OVERRIDE : Nat
  CS_OVERRIDE_ENABLE : Bool
  CR0 : Nat
  deriving Repr, DecidableEq

/-- The register file of the 80386 core (`CpuRegisters` in the source):
named 8-bit views, 16-bit general registers, segment selectors and `IP`. -/
structure CpuRegisters where
  AL : Nat
  CL : Nat
  DL : Nat
  BL : Nat
  AH : Nat
  CH : Nat
  DH : Nat
  BH : Nat
  AX : Nat
  CX : Nat
  DX : Nat
  BX : Nat
  SP : Nat
  BP : Nat
  SI : Nat
  DI : Nat
  ES : Nat
  CS : Nat
  SS : Nat
  DS : Nat
  IP : Nat
  deriving Repr, DecidableEq

/-- The 8-bit register index table wired up in `New80386CPU`:
`[AL, CL, DL, BL, AH, CH, DH, BH]`. -/
def CpuRegisters.registers8Bit (r : CpuRegisters) : Nat → Nat
  | 0 => r.AL
  | 1 => r.CL
  | 2 => r.DL
  | 3 => r.BL
  | 4 => r.AH
  | 5 => r.CH
  | 6 => r.DH
  | 7 => r.BH
  | _ => 0

/-- The 16-bit register index table wired up in `New80386CPU`:
`[AX, CX, DX, BX, SP, BP, SI, DI]`. -/
def CpuRegisters.registers16Bit (r : CpuRegisters) : Nat → Nat
  | 0 => r.AX
  | 1 => r.CX
  | 2 => r.DX
  | 3 => r.BX
  | 4 => r.SP
  | 5 => r.BP
  | 6 => r.SI
  | 7 => r.DI
  | _ => 0

/-- Pointwise update of the 8-bit register index table (the Go code stores
the table as a slice of pointers; an assignment through slot `i` is embedded
as an update of the register cell the slot designates). -/
def CpuRegisters.setReg8 (r : CpuRegisters) (i v : Nat) : CpuRegisters :=
  match i with
  | 0 => { r with AL := v }
  | 1 => { r with CL := v }
  | 2 => { r with DL := v }
  | 3 => { r with BL := v }
  | 4 => { r with AH := v }
  | 5 => { r with CH := v }
  | 6 => { r with DH := v }
  | 7 => { r with BH := v }
  | _ => r

/-- Pointwise update of the 16-bit register index table. -/
def CpuRegisters.setReg16 (r : CpuRegisters) (i v : Nat) : CpuRegisters :=
  match i with
  | 0 => { r with AX := v }
  | 1 => { r with CX := v }
  | 2 => { r with DX := v }
  | 3 => { r with BX := v }
  | 4 => { r with SP := v }
  | 5 => { r with BP := v }
  | 6 => { r with SI := v }
  | 7 => { r with DI := v }
  | _ => r

/-- The CPU core state of `80386_cpu.go` (`CpuCore` in the source); the bus
and memory-controller handles are externalised, message sends are returned
explicitly. -/
structure CpuCore where
  partId : Nat
  registers : CpuRegisters
  mode : Nat
  flags : CpuExecutionFlags
  busId : Nat
  currentlyExecutingInstructionPointer : Nat
  lastExecutedInstructionPointer : Nat
  currentByteAtCodePointer : Nat
  deriving Repr, DecidableEq

/-- `GetCurrentCodePointer`: `uint32(core.registers.CS<<4 + core.registers.IP)`.
Both operands are Go `uint16`, so the shift and the addition are carried out
modulo `2^16` before the widening cast. -/
def GetCurrentCodePointer (core : CpuCore) : Nat :=
  ((core.registers.CS <<< 4) % 65536 + core.registers.IP) % 65536

/-- `BuildAddress`: `uint32(segment<<4 + address)` with `uint16` operands,
so again computed modulo `2^16`. -/
def BuildAddress (segment address : Nat) : Nat :=
  ((segment <<< 4) % 65536 + address) % 65536

/-- `EnterMode`: store the mode byte and broadcast the mode-switch
announcement carrying it (the source additionally logs the new mode). -/
def EnterMode (core : CpuCore) (mode : Nat) : CpuCore × List BusMessage :=
  ({ core with mode := mode }, [⟨MESSAGE_GLOBAL_CPU_MODESWITCH, [mode]⟩])

/-- `OnReceiveMessage`: a switch on the message subject; only the
mode-switch request subject has a case, which calls `EnterMode` with the
first payload byte (`message.Data[0]`). -/
def OnReceiveMessage (device : CpuCore) (message : BusMessage) : CpuCore × List BusMessage :=
  if message.Subject = MESSAGE_REQUEST_CPU_MODESWITCH then
    EnterMode device (message.Data.headD 0)
  else
    (device, [])

/-- `Reset`: load the 8086 reset vector into `CS:IP` and broadcast the
BIOS-region lock message with an empty payload. -/
def Reset (core : CpuCore) : CpuCore × List BusMessage :=
  ({ core with registers := { core.registers with CS := 0xF000, IP := 0xFFF0 } },
   [⟨MESSAGE_GLOBAL_LOCK_BIOS_MEM_REGION, []⟩])

/-- `Step`: snapshot the fetch address into
`currentlyExecutingInstructionPointer`; if it equals the previously recorded
address, die with the loop diagnostic (`log.Fatalf`); otherwise dispatch via
`routeInstruction` (a parameter here: that function's body is not under
`src/`), panic on a nonzero status, and record the snapshot field as the
last-executed address. -/
def Step (routeInstruction : CpuCore → CpuCore × Nat) (core : CpuCore) :
    Except String CpuCore :=
  let core1 := { core with currentlyExecutingInstructionPointer := GetCurrentCodePointer core }
  if core1.currentlyExecutingInstructionPointer = core1.lastExecutedInstructionPointer then
    Except.error "CPU appears to be in a loop! Did you forget to increment the IP register?"
  else
    let routed := routeInstruction core1
    if routed.2 ≠ 0 then
      Except.error "panic"
    else
      Except.ok { routed.1 with
        lastExecutedInstructionPointer := routed.1.currentlyExecutingInstructionPointer }

/-- The three fields of a parsed ModR/M byte (`ModRm` in the source). -/
structure ModRm where
  mod : Nat
  reg : Nat
  rm : Nat
  deriving Repr, DecidableEq

/-- A memory access issued through the memory access controller. -/
inductive MemAccess where
  | read8 (addr : Nat)
  | read16 (addr : Nat)
  | write8 (addr : Nat) (value : Nat)
  | write16 (addr : Nat) (value : Nat)
  deriving Repr, DecidableEq

/-- The external flat-memory accessor (values are bytes / 16-bit words). -/
structure MemoryAccessController where
  ReadAddr8 : Nat → Nat
  ReadAddr16 : Nat → Nat

/-- `readRm8`: with `mod = 3` resolve to the 8-bit register file slot `rm`;
otherwise compute the 16-bit address mode (`getAddressMode16`, a parameter
here: the ModR/M decoder body is not under `src/`) and read one byte from
memory. The returned trace records the memory accesses issued. -/
def readRm8 (core : CpuCore) (mem : MemoryAccessController)
    (getAddressMode16 : ModRm → CpuCore → Nat) (modrm : ModRm) :
    Nat × List MemAccess :=
  if modrm.mod = 3 then
    (core.registers.registers8Bit modrm.rm, [])
  else
    let addressMode := getAddressMode16 modrm core
    (mem.ReadAddr8 addressMode, [MemAccess.read8 addressMode])

/-- `readRm16`: the 16-bit analogue of `readRm8`. -/
def readRm16 (core : CpuCore) (mem : MemoryAccessController)
    (getAddressMode16 : ModRm → CpuCore → Nat) (modrm : ModRm) :
    Nat × List MemAccess :=
  if modrm.mod = 3 then
    (core.registers.registers16Bit modrm.rm, [])
  else
    let addressMode := getAddressMode16 modrm core
    (mem.ReadAddr16 addressMode, [MemAccess.read16 addressMode])

/-- `writeRm8`: with `mod = 3` store into the 8-bit register file slot `rm`;
otherwise write one byte to the computed memory address. -/
def writeRm8 (core : CpuCore) (getAddressMode16 : ModRm → CpuCore → Nat)
    (modrm : ModRm) (value : Nat) : CpuCore × List MemAccess :=
  if modrm.mod = 3 then
    ({ core with registers := core.registers.setReg8 modrm.rm value }, [])
  else
    let addressMode := getAddressMode16 modrm core
    (core, [MemAccess.write8 addressMode value])

/-- `writeRm16`: the 16-bit analogue of `writeRm8`. -/
def writeRm16 (core : CpuCore) (getAddressMode16 : ModRm → CpuCore → Nat)
    (modrm : ModRm) (value : Nat) : CpuCore × List MemAccess :=
  if modrm.mod = 3 then
    ({ core with registers := core.registers.setReg16 modrm.rm value }, [])
  else
    let addressMode := getAddressMode16 modrm core
    (core, [MemAccess.write16 addressMode value])

/-- An all-zero register file, for concrete evaluations. -/
def zeroRegs : CpuRegisters :=
  ⟨0, 0, 0, 0, 0, 0, 0, 0, 0, 0, 0, 0, 0, 0, 0, 0, 0, 0, 0, 0, 0⟩

/-- All-clear execution flags (`CR0 = 0`), for concrete evaluations. -/
def zeroFlags : CpuExecutionFlags :=
  ⟨0, false, 0⟩

/-- An all-zero core, for concrete evaluations. -/
def zeroCore : CpuCore :=
  ⟨0, zeroRegs, 0, zeroFlags, 0, 0, 0, 0⟩

/-- A core holding the post-reset fetch state `CS = 0xF000`, `IP = 0xFFF0`. -/
def resetVecCore : CpuCore :=
  { zeroCore with registers := { zeroRegs with CS := 0xF000, IP := 0xFFF0 } }

/-- A core whose fetch address (1) differs from the last-executed address (0). -/
def stepOkCore : CpuCore :=
  { zeroCore with registers := { zeroRegs with IP := 1 } }

end Intel8086

namespace Cpu

/-- Modelled from the spec: the register-file definition of package `cpu`
(the "smaller cpu file") is not under `src/`; the handler file uses named
16-bit registers, `CS`/`IP`, and one `Nat`-valued field per flag
(`ZF`, `CF`, `SF`, `PF`, `OF`, `DF`), as its field accesses show. -/
structure CpuRegs where
  AL : Nat
  AH : Nat
  AX : Nat
  BX : Nat
  CX : Nat
  DX : Nat
  SP : Nat
  BP : Nat
  SI : Nat
  DI : Nat
  CS : Nat
  IP : Nat
  ZF : Nat
  CF : Nat
  SF : Nat
  PF : Nat
  OF : Nat
  DF : Nat
  deriving Repr, DecidableEq

/-- Modelled from the spec: the 16-bit register index table of package `cpu`;
spec §3 gives the canonical order AX, CX, DX, BX, SP, BP, SI, DI. -/
def CpuRegs.registers16Bit (r : CpuRegs) : Nat → Nat
  | 0 => r.AX
  | 1 => r.CX
  | 2 => r.DX
  | 3 => r.BX
  | 4 => r.SP
  | 5 => r.BP
  | 6 => r.SI
  | 7 => r.DI
  | _ => 0

/-- The package `cpu` core state used by the opcode handlers: registers plus
the flat memory image seen through the memory access controller. -/
structure CpuState where
  registers : CpuRegs
  mem : Nat → Nat

/-- The memory accessor's byte read (`ReadAddr8` returns a `uint8`). -/
def ReadAddr8 (s : CpuState) (addr : Nat) : Nat :=
  s.mem addr % 256

/-- Modelled from the spec: `GetCurrentCodePointer` of package `cpu` is not
under `src/`; spec §4.1 gives the real-mode linear address as
`(segment << 4) + offset` truncated to 20 bits. -/
def GetCurrentCodePointer (s : CpuState) : Nat :=
  ((s.registers.CS <<< 4) + s.registers.IP) % 1048576

/-- `SetIP` (reached through the memory access controller in the source;
spec §6 allows exposing it as a register-file operation). -/
def SetIP (s : CpuState) (addr : Nat) : CpuState :=
  { s with registers := { s.registers with IP := addr } }

/-- Modelled from the spec: `getMSB` of package `cpu` is not under `src/`;
it extracts the most significant bit of a byte. -/
def getMSB (b : Nat) : Nat :=
  (b >>> 7) &&& 1

/-- Modelled from the spec: `getBitValue` of package `cpu` is not under
`src/`; it extracts bit `i` of a byte. -/
def getBitValue (b i : Nat) : Nat :=
  (b >>> i) &&& 1

/-- The three fields of a parsed ModR/M byte. -/
structure ModRm where
  mod : Nat
  reg : Nat
  rm : Nat
  deriving Repr, DecidableEq

/-- Modelled from the spec: `consumeModRm` of package `cpu` is not under
`src/`; spec §4.2 has it parse the byte after the opcode into
`mod` (bits 7-6), `reg` (bits 5-3), `rm` (bits 2-0), with no state change
(the callers advance `IP` themselves). -/
def consumeModRm (s : CpuState) : ModRm :=
  let b := ReadAddr8 s (GetCurrentCodePointer s + 1)
  ⟨b >>> 6, (b >>> 3) &&& 7, b &&& 7⟩

/-- Two's-complement wrap of an integer into the `int16` range. -/
def int16wrap (x : Int) : Int :=
  (x + 32768) % 65536 - 32768

/-- Go's `uint16(x)` applied to an `int16` value. -/
def toUInt16 (x : Int) : Nat :=
  (x % 65536).toNat

/-- `INSTR_CMP`, case `0x3C` (CMP AL, imm8): read the immediate, compare
with AL by the three-way `if`, then `SetIP(uint16(GetIP() + 2))`. The other
switch arms of the source are fatal defaults. -/
def INSTR_CMP (core : CpuState) : CpuState :=
  let src := ReadAddr8 core (GetCurrentCodePointer core + 1)
  let dst := core.registers.AL
  let core1 :=
    if src = dst then
      { core with registers := { core.registers with ZF := 1, CF := 0 } }
    else if dst < src then
      { core with registers := { core.registers with ZF := 0, CF := 1 } }
    else if dst > src then
      { core with registers := { core.registers with ZF := 0, CF := 0 } }
    else
      core
  SetIP core1 ((core1.registers.IP + 2) % 65536)

/-- `INSTR_TEST_AL` (TEST AL, imm8): compute `val & AL`, set SF from the
result's MSB, ZF from the zero test, PF by xor-folding the eight result bits
into 1, clear CF and OF, then `SetIP(uint16(GetIP() + 2))`. -/
def INSTR_TEST_AL (core : CpuState) : CpuState :=
  let val := ReadAddr8 core (GetCurrentCodePointer core + 1)
  let val2 := core.registers.AL
  let tmp := val &&& val2
  let sf := getMSB tmp
  let zf := if tmp = 0 then 1 else 0
  let pf := (List.range 8).foldl (fun acc i => acc ^^^ getBitValue tmp i) 1
  let core1 := { core with registers :=
    { core.registers with SF := sf, ZF := zf, PF := pf, CF := 0, OF := 0 } }
  SetIP core1 ((core1.registers.IP + 2) % 65536)

/-- `INSTR_XCHG` (opcode `0x87`): parse the ModR/M byte, load the two
registers indexed by `modrm.mod` and `modrm.reg` into locals, swap the
locals (never writing either back), then `SetIP(uint16(GetIP() + 2))`. -/
def INSTR_XCHG (core : CpuState) : CpuState :=
  let modrm := consumeModRm core
  let reg1 := core.registers.registers16Bit modrm.mod
  let reg2 := core.registers.registers16Bit modrm.reg
  let tmp := reg2
  let reg2' := reg1
  let reg1' := tmp
  let _ := (reg1, reg2, reg1', reg2')
  SetIP core ((core.registers.IP + 2) % 65536)

/-- `INSTR_JZ_SHORT_REL8` (opcode `0x74`): read the displacement byte
(`int16(uint8)`, a zero extension), form `int16(IP+2) + offset` in `int16`
arithmetic, and branch to it when `ZF == 0`, otherwise
`SetIP(uint16(GetIP() + 2))`. -/
def INSTR_JZ_SHORT_REL8 (core : CpuState) : CpuState :=
  let offset : Int := (ReadAddr8 core (GetCurrentCodePointer core + 1) : Int)
  let destAddr : Int := int16wrap (int16wrap (((core.registers.IP + 2) % 65536 : Nat) : Int) + offset)
  if core.registers.ZF = 0 then
    SetIP core (toUInt16 destAddr)
  else
    SetIP core ((core.registers.IP + 2) % 65536)

/-- `INSTR_JNZ_SHORT_REL8` (opcode `0x75`): same displacement arithmetic as
`INSTR_JZ_SHORT_REL8`, branching when `ZF != 0`, otherwise
`SetIP(uint16(GetIP() + 2))`. -/
def INSTR_JNZ_SHORT_REL8 (core : CpuState) : CpuState :=
  let offset : Int := (ReadAddr8 core (GetCurrentCodePointer core + 1) : Int)
  let destAddr : Int := int16wrap (int16wrap (((core.registers.IP + 2) % 65536 : Nat) : Int) + offset)
  if core.registers.ZF ≠ 0 then
    SetIP core (toUInt16 destAddr)
  else
    SetIP core ((core.registers.IP + 2) % 65536)

/-- The spec-side byte parity flag: 1 when the result's eight low bits hold
an even number of ones (Intel's PF convention), 0 otherwise. -/
def parity8 (t : Nat) : Nat :=
  if ((List.range 8).countP fun i => t.testBit i) % 2 = 0 then 1 else 0

/-- An all-zero package `cpu` register file, for concrete evaluations. -/
def zeroCpuRegs : CpuRegs :=
  ⟨0, 0, 0, 0, 0, 0, 0, 0, 0, 0, 0, 0, 0, 0, 0, 0, 0, 0⟩

/-- Memory image holding the bytes `74 02` (also read as `75 02`) at
linear address `0x200`. -/
def jzMem : Nat → Nat := fun a =>
  if a = 0x200 then 0x74 else if a = 0x201 then 0x02 else 0

/-- State at `CS = 0`, `IP = 0x200` with `ZF = 1` over `jzMem`. -/
def sJZ1 : CpuState :=
  ⟨{ zeroCpuRegs with IP := 0x200, ZF := 1 }, jzMem⟩

/-- State at `CS = 0`, `IP = 0x200` with `ZF = 0` over `jzMem`. -/
def sJZ0 : CpuState :=
  ⟨{ zeroCpuRegs with IP := 0x200 }, jzMem⟩

/-- Memory image holding the bytes `87 D8` (XCHG AX, BX) at `0x200`. -/
def xchgMem : Nat → Nat := fun a =>
  if a = 0x200 then 0x87 else if a = 0x201 then 0xD8 else 0

/-- State at `CS = 0`, `IP = 0x200` with `AX = 1`, `BX = 2` over `xchgMem`. -/
def sXchg : CpuState :=
  ⟨{ zeroCpuRegs with AX := 1, BX := 2, IP := 0x200 }, xchgMem⟩

end Cpu

/-- C1: the claim fails on the code. `GetCurrentCodePointer` and
`BuildAddress` carry out the shift-and-add on `uint16` operands, so the
linear address is `(segment*16 + offset) mod 2^16`, never widened to 20
bits; at the post-reset fetch state `CS = 0xF000`, `IP = 0xFFF0` the code
yields `0xFFF0` where the claimed `(seg*16 + off) mod 2^20` is `0xFFFF0`. -/
theorem getCurrentCodePointer_truncates_to_16_bits :
    (∀ core : Intel8086.CpuCore,
      Intel8086.GetCurrentCodePointer core =
        (core.registers.CS * 16 + core.registers.IP) % 65536) ∧
    Intel8086.GetCurrentCodePointer Intel8086.resetVecCore = 0xFFF0 ∧
    Intel8086.BuildAddress 0xF000 0xFFF0 = 0xFFF0 ∧
    (0xF000 * 16 + 0xFFF0) % 2 ^ 20 = 0xFFFF0 := by
  refine ⟨fun core => ?_, by decide, by decide, by decide⟩
  unfold Intel8086.GetCurrentCodePointer
  rw [Nat.shiftLeft_eq, Nat.mod_add_mod]

/-- C2: the claim fails on the code. At `CS = 0`, `IP = 0x200` over the
bytes `74 02` / `75 02`: with `ZF = 1`, `INSTR_JZ_SHORT_REL8` falls through
to `IP = 0x202` where the claim requires `0x204`, and with `ZF = 0` it
takes the branch to `0x204` where the claim requires `0x202`; the code's
branch conditions are inverted, and `INSTR_JNZ_SHORT_REL8` likewise. -/
theorem jz_jnz_condition_inverted :
    (Cpu.INSTR_JZ_SHORT_REL8 Cpu.sJZ1).registers.IP = 0x202 ∧
    (Cpu.INSTR_JZ_SHORT_REL8 Cpu.sJZ0).registers.IP = 0x204 ∧
    (Cpu.INSTR_JNZ_SHORT_REL8 Cpu.sJZ1).registers.IP = 0x204 ∧
    (Cpu.INSTR_JNZ_SHORT_REL8 Cpu.sJZ0).registers.IP = 0x202 := by
  decide

/-- C3: the claim fails on the code. `INSTR_XCHG` swaps local copies of the
two registers and never writes either back: on every state the register
file is unchanged except for `IP ← IP + 2`; in particular from `AX = 1`,
`BX = 2` over the bytes `87 D8` it leaves `AX = 1`, `BX = 2` where the
claim requires `AX = 2`, `BX = 1`. -/
theorem instr_xchg_discards_swap :
    (∀ s : Cpu.CpuState, (Cpu.INSTR_XCHG s).registers =
      { s.registers with IP := (s.registers.IP + 2) % 65536 }) ∧
    (Cpu.INSTR_XCHG Cpu.sXchg).registers.AX = 1 ∧
    (Cpu.INSTR_XCHG Cpu.sXchg).registers.BX = 2 ∧
    (Cpu.INSTR_XCHG Cpu.sXchg).registers.IP = 0x202 :=
  ⟨fun _ => rfl, rfl, rfl, rfl⟩

/-- C5: flag law of `INSTR_CMP` (opcode `3C ib`): after execution, ZF = 1
iff AL equals the immediate byte, CF = 1 iff AL is below it (unsigned), and
ZF = 0 together with CF = 0 iff AL is above it (unsigned). -/
theorem instr_cmp_flag_law (s : Cpu.CpuState) :
    (((Cpu.INSTR_CMP s).registers.ZF = 1) ↔
      s.registers.AL = Cpu.ReadAddr8 s (Cpu.GetCurrentCodePointer s + 1)) ∧
    (((Cpu.INSTR_CMP s).registers.CF = 1) ↔
      s.registers.AL < Cpu.ReadAddr8 s (Cpu.GetCurrentCodePointer s + 1)) ∧
    ((((Cpu.INSTR_CMP s).registers.ZF = 0) ∧ ((Cpu.INSTR_CMP s).registers.CF = 0)) ↔
      Cpu.ReadAddr8 s (Cpu.GetCurrentCodePointer s + 1) < s.registers.AL) := by
  simp only [Cpu.INSTR_CMP, Cpu.SetIP]
  split_ifs with h1 h2 h3 <;> simp_all <;> omega

set_option maxRecDepth 100000 in
/-- The xor-fold of the eight low bits starting from 1, as `INSTR_TEST_AL`
computes PF, equals the even-parity flag, for every byte. -/
theorem pf_fold_eq_parity8 :
    ∀ t, t < 256 →
      ((List.range 8).foldl (fun acc i => acc ^^^ Cpu.getBitValue t i) 1) = Cpu.parity8 t := by
  decide

set_option maxRecDepth 100000 in
/-- `getMSB` of a byte is 1 exactly when bit 7 of the byte is set. -/
theorem getMSB_eq_testBit :
    ∀ t, t < 256 → Cpu.getMSB t = (if t.testBit 7 then 1 else 0) := by
  decide

/-- C6: `INSTR_TEST_AL` (opcode `A8 ib`) computes `AL & imm8` and sets SF to
the result's most significant bit, ZF to 1 exactly when the result is zero,
PF to the (even-)parity of the result, forces CF = 0 and OF = 0, and leaves
AL unmodified. -/
theorem instr_test_al_flags (s : Cpu.CpuState) :
    (Cpu.INSTR_TEST_AL s).registers.AL = s.registers.AL ∧
    (Cpu.INSTR_TEST_AL s).registers.SF =
      (if (Cpu.ReadAddr8 s (Cpu.GetCurrentCodePointer s + 1) &&& s.registers.AL).testBit 7
       then 1 else 0) ∧
    (Cpu.INSTR_TEST_AL s).registers.ZF =
      (if Cpu.ReadAddr8 s (Cpu.GetCurrentCodePointer s + 1) &&& s.registers.AL = 0
       then 1 else 0) ∧
    (Cpu.INSTR_TEST_AL s).registers.PF =
      Cpu.parity8 (Cpu.ReadAddr8 s (Cpu.GetCurrentCodePointer s + 1) &&& s.registers.AL) ∧
    (Cpu.INSTR_TEST_AL s).registers.CF = 0 ∧
    (Cpu.INSTR_TEST_AL s).registers.OF = 0 := by
  have himm : Cpu.ReadAddr8 s (Cpu.GetCurrentCodePointer s + 1) < 256 := by
    unfold Cpu.ReadAddr8
    omega
  have hlt : Cpu.ReadAddr8 s (Cpu.GetCurrentCodePointer s + 1) &&& s.registers.AL < 256 :=
    lt_of_le_of_lt Nat.and_le_left himm
  exact ⟨rfl, getMSB_eq_testBit _ hlt, rfl, pf_fold_eq_parity8 _ hlt, rfl, rfl⟩

/-- C4 counterexample: delivering a mode-switch request for PROTECTED mode
to a core whose `CR0` is 0 sets the mode byte but leaves the CR0 PE bit
(bit 0) clear — the code never writes `CR0` — refuting the claim's
"sets/clears the corresponding CR0 bits". -/
theorem onReceiveMessage_modeswitch_leaves_CR0_clear :
    ((Intel8086.OnReceiveMessage Intel8086.zeroCore
        ⟨MESSAGE_REQUEST_CPU_MODESWITCH, [PROTECTED_MODE]⟩).1.mode = PROTECTED_MODE) ∧
    ¬ ((Intel8086.OnReceiveMessage Intel8086.zeroCore
        ⟨MESSAGE_REQUEST_CPU_MODESWITCH, [PROTECTED_MODE]⟩).1.flags.CR0.testBit 0) := by
  decide

/-- C4 (amended): on a mode-switch request carrying a one-byte target mode,
the core unconditionally sets its internal mode to that byte and broadcasts
exactly one GLOBAL_CPU_MODESWITCH announcement whose payload is the new
mode byte; all other state, `CR0` included, is left unchanged. -/
theorem onReceiveMessage_modeswitch_sets_mode_and_broadcasts
    (core : Intel8086.CpuCore) (m : Nat) (rest : List Nat) :
    Intel8086.OnReceiveMessage core ⟨MESSAGE_REQUEST_CPU_MODESWITCH, m :: rest⟩ =
      ({ core with mode := m }, [⟨MESSAGE_GLOBAL_CPU_MODESWITCH, [m]⟩]) :=
  rfl

/-- C7: at `Step` entry the fetch-address snapshot is compared with the
last-executed address: on equality the step fails with the "CPU appears to
be in a loop" diagnostic whatever handler dispatch is installed (so no
handler is consulted); otherwise, when the dispatch returns status 0 and
leaves the entry snapshot field untouched (as every handler in the
repository does), a successful step records the entry snapshot as the
last-executed instruction address. -/
theorem step_watchdog (route : Intel8086.CpuCore → Intel8086.CpuCore × Nat)
    (core : Intel8086.CpuCore) :
    (Intel8086.GetCurrentCodePointer core = core.lastExecutedInstructionPointer →
      ∀ r : Intel8086.CpuCore → Intel8086.CpuCore × Nat,
        Intel8086.Step r core = Except.error
          "CPU appears to be in a loop! Did you forget to increment the IP register?") ∧
    (Intel8086.GetCurrentCodePointer core ≠ core.lastExecutedInstructionPointer →
      (route { core with currentlyExecutingInstructionPointer :=
          Intel8086.GetCurrentCodePointer core }).1.currentlyExecutingInstructionPointer =
        Intel8086.GetCurrentCodePointer core →
      ∀ result : Intel8086.CpuCore,
        Intel8086.Step route core = Except.ok result →
        result.lastExecutedInstructionPointer = Intel8086.GetCurrentCodePointer core) := by
  constructor
  · intro h r
    simp [Intel8086.Step, h]
  · intro h hpres result hres
    simp only [Intel8086.Step] at hres
    rw [if_neg h] at hres
    by_cases h0 : (route { core with currentlyExecutingInstructionPointer :=
        Intel8086.GetCurrentCodePointer core }).2 = 0
    · simp only [h0, ne_eq, not_true_eq_false, if_neg, ite_false, not_false_eq_true] at hres
      injection hres with h2
      subst h2
      simpa using hpres
    · simp [h0] at hres

/-- Witness for C7: the all-zero core trips the watchdog; a core whose
fetch address is 1 steps successfully and records that address. -/
theorem step_watchdog_witness :
    (Intel8086.GetCurrentCodePointer Intel8086.zeroCore =
        Intel8086.zeroCore.lastExecutedInstructionPointer ∧
      Intel8086.Step (fun c => (c, 0)) Intel8086.zeroCore = Except.error
        "CPU appears to be in a loop! Did you forget to increment the IP register?") ∧
    (Intel8086.GetCurrentCodePointer Intel8086.stepOkCore ≠
        Intel8086.stepOkCore.lastExecutedInstructionPointer ∧
      ∀ result : Intel8086.CpuCore,
        Intel8086.Step (fun c => (c, 0)) Intel8086.stepOkCore = Except.ok result →
        result.lastExecutedInstructionPointer =
          Intel8086.GetCurrentCodePointer Intel8086.stepOkCore) :=
  ⟨⟨by decide, (step_watchdog (fun c => (c, 0)) Intel8086.zeroCore).1 (by decide) _⟩,
   ⟨by decide, (step_watchdog (fun c => (c, 0)) Intel8086.stepOkCore).2 (by decide) (by decide)⟩⟩

/-- C8: with `mod = 3` (binary 11, register-direct) the four r/m resolvers
touch only the register file — the resolved operand is the indexed register
cell — and issue no memory access, whatever the effective-address decoder
would compute. -/
theorem modrm_reg_direct_no_memory_access (core : Intel8086.CpuCore)
    (mem : Intel8086.MemoryAccessController)
    (gam : Intel8086.ModRm → Intel8086.CpuCore → Nat)
    (modrm : Intel8086.ModRm) (v w : Nat) (h : modrm.mod = 3) :
    Intel8086.readRm8 core mem gam modrm =
      (core.registers.registers8Bit modrm.rm, []) ∧
    Intel8086.readRm16 core mem gam modrm =
      (core.registers.registers16Bit modrm.rm, []) ∧
    Intel8086.writeRm8 core gam modrm v =
      ({ core with registers := core.registers.setReg8 modrm.rm v }, []) ∧
    Intel8086.writeRm16 core gam modrm w =
      ({ core with registers := core.registers.setReg16 modrm.rm w }, []) := by
  simp [Intel8086.readRm8, Intel8086.readRm16, Intel8086.writeRm8, Intel8086.writeRm16, h]

/-- Witness for C8 at the ModR/M byte `D8`-style fields `mod = 3`, `rm = 1`. -/
theorem modrm_reg_direct_no_memory_access_witness :
    (⟨3, 0, 1⟩ : Intel8086.ModRm).mod = 3 ∧
    (Intel8086.readRm8 Intel8086.zeroCore ⟨fun _ => 0, fun _ => 0⟩ (fun _ _ => 0)
        ⟨3, 0, 1⟩ =
      (Intel8086.zeroCore.registers.registers8Bit (⟨3, 0, 1⟩ : Intel8086.ModRm).rm, []) ∧
    Intel8086.readRm16 Intel8086.zeroCore ⟨fun _ => 0, fun _ => 0⟩ (fun _ _ => 0)
        ⟨3, 0, 1⟩ =
      (Intel8086.zeroCore.registers.registers16Bit (⟨3, 0, 1⟩ : Intel8086.ModRm).rm, []) ∧
    Intel8086.writeRm8 Intel8086.zeroCore (fun _ _ => 0) ⟨3, 0, 1⟩ 5 =
      ({ Intel8086.zeroCore with registers :=
          Intel8086.zeroCore.registers.setReg8 (⟨3, 0, 1⟩ : Intel8086.ModRm).rm 5 }, []) ∧
    Intel8086.writeRm16 Intel8086.zeroCore (fun _ _ => 0) ⟨3, 0, 1⟩ 7 =
      ({ Intel8086.zeroCore with registers :=
          Intel8086.zeroCore.registers.setReg16 (⟨3, 0, 1⟩ : Intel8086.ModRm).rm 7 }, [])) :=
  ⟨rfl, modrm_reg_direct_no_memory_access Intel8086.zeroCore ⟨fun _ => 0, fun _ => 0⟩
    (fun _ _ => 0) ⟨3, 0, 1⟩ 5 7 rfl⟩

/-- C9: `Reset` assigns `CS = 0xF000`, `IP = 0xFFF0` and broadcasts exactly
one GLOBAL_LOCK_BIOS_MEM_REGION message. -/
theorem reset_sets_reset_vector_and_locks_bios (core : Intel8086.CpuCore) :
    (Intel8086.Reset core).1.registers.CS = 0xF000 ∧
    (Intel8086.Reset core).1.registers.IP = 0xFFF0 ∧
    (Intel8086.Reset core).2 = [⟨MESSAGE_GLOBAL_LOCK_BIOS_MEM_REGION, []⟩] :=
  ⟨rfl, rfl, rfl⟩

/-- C10: for every bus message whose subject is not the mode-switch request,
`OnReceiveMessage` returns the core unchanged (every register, flag, mode
and pointer field) and emits no bus message. -/
theorem onReceiveMessage_frame (core : Intel8086.CpuCore) (msg : BusMessage)
    (h : msg.Subject ≠ MESSAGE_REQUEST_CPU_MODESWITCH) :
    Intel8086.OnReceiveMessage core msg = (core, []) := by
  unfold Intel8086.OnReceiveMessage
  rw [if_neg h]

/-- Witness for C10 at the BIOS-lock subject. -/
theorem onReceiveMessage_frame_witness :
    MESSAGE_GLOBAL_LOCK_BIOS_MEM_REGION ≠ MESSAGE_REQUEST_CPU_MODESWITCH ∧
    Intel8086.OnReceiveMessage Intel8086.zeroCore
      ⟨MESSAGE_GLOBAL_LOCK_BIOS_MEM_REGION, []⟩ = (Intel8086.zeroCore, []) :=
  ⟨by decide, onReceiveMessage_frame Intel8086.zeroCore
    ⟨MESSAGE_GLOBAL_LOCK_BIOS_MEM_REGION, []⟩ (by decide)⟩

end ThreeAteSix
